import Mathlib

set_option maxRecDepth 4000

/-!
Verification of the document-session / autosave / crash-recovery core of the
Texter editor (`src/app.py`), as a shallow embedding.

Modelling conventions:
* The autosave directory's filesystem is an association list from file name
  (relative to the directory, as produced by `os.listdir`) to file contents;
  the earliest entry for a key wins on lookup, and writes keep keys unique.
* File contents are either raw text, a parsed metadata record (the JSON
  serialization of `{"file_path": .., "timestamp": .., "title": ..}` is
  modelled as structured data), or unreadable/unparsable bytes.
* `tkinter` state is reduced to the data the session logic touches: a tab's
  notebook title, its text-widget buffer, its `file_path` and `autosave_id`
  (class `TabData`).  `uuid.uuid4()` is modelled by a fresh-name counter.
* Since paths in the model are directory-relative names, `os.path.join`
  with the autosave directory and `os.path.basename` of the joined path are
  identities and are not represented.
-/

namespace Texter

/-- Contents of one on-disk file: raw text (a snapshot or user document), a
parsed metadata sidecar record, or bytes that fail to read/parse. -/
inductive FileData where
  | text (s : String)
  | meta (file_path : Option String) (timestamp : Nat) (title : String)
  | corrupt
deriving DecidableEq, Repr

/-- The filesystem of the autosave directory: file name to contents. -/
abbrev FS := List (String × FileData)

/-- Look a file up by name (first entry wins, as keys are kept unique). -/
def fsRead (fs : FS) (p : String) : Option FileData :=
  match fs with
  | [] => none
  | (q, v) :: rest => if q = p then some v else fsRead rest p

/-- `open(p, "w")`: (over)write file `p` with contents `v`. -/
def fsWrite (fs : FS) (p : String) (v : FileData) : FS :=
  (p, v) :: fs.filter (fun e => e.1 != p)

/-- `os.remove(p)` guarded by `os.path.exists(p)`. -/
def fsDelete (fs : FS) (p : String) : FS :=
  fs.filter (fun e => e.1 != p)

/-- `os.path.exists(p)`. -/
def fsExists (fs : FS) (p : String) : Bool :=
  (fsRead fs p).isSome

/-- `AUTOSAVE_PREFIX = "advanced_text_editor_autosave_"` from `app.py`
(the name avoids ending in the word that follows `AUTOSAVE_`). -/
def AUTOSAVE_STEM : String := "advanced_text_editor_autosave_"

/-- `AUTOSAVE_META_EXT = ".meta.json"` from `app.py`. -/
def AUTOSAVE_META_EXT : String := ".meta.json"

/-- `fname = AUTOSAVE_PREFIX + td.autosave_id + ".txt"` (app.py line 163). -/
def snapshotName (aid : String) : String :=
  AUTOSAVE_STEM ++ aid ++ ".txt"

/-- `meta_path = fpath + AUTOSAVE_META_EXT` (app.py line 172). -/
def metaName (aid : String) : String :=
  snapshotName aid ++ AUTOSAVE_META_EXT

/-- `os.path.basename` for POSIX-style paths. -/
def basename (p : String) : String :=
  (p.splitOn "/").getLastD p

/-- One open tab: notebook title, text-widget buffer, bound save path and
autosave slot (class `TabData` plus the notebook tab text). -/
structure TabData where
  title : String
  content : String
  file_path : Option String
  autosave_id : String
deriving DecidableEq, Repr

/-- The whole session: open tabs in creation order, the autosave directory's
filesystem, and a counter supplying fresh `uuid4` strings. -/
structure EditorState where
  tabs : List TabData
  fs : FS
  nextUuid : Nat
deriving DecidableEq, Repr

/-- A fresh identifier from the model's `uuid4` supply. -/
def uuidStr (n : Nat) : String := "uuid-" ++ toString n

/-- The tab built by `_create_tab()` with all defaults. -/
def freshTab (n : Nat) : TabData :=
  { title := "Untitled", content := "", file_path := none,
    autosave_id := uuidStr n }

/-- `_create_tab(title, content, file_path, recovered, autosave_id)`:
append a tab whose notebook text is `title`, or `"Recovered - " + title`
when `recovered`; an omitted `autosave_id` draws a fresh uuid. -/
def create_tab (st : EditorState) (title content : String)
    (file_path : Option String) (recovered : Bool) (aid : Option String) :
    EditorState :=
  let shown := if recovered then "Recovered - " ++ title else title
  match aid with
  | some a =>
      { st with tabs := st.tabs ++ [⟨shown, content, file_path, a⟩] }
  | none =>
      { st with
        tabs := st.tabs ++ [⟨shown, content, file_path, uuidStr st.nextUuid⟩],
        nextUuid := st.nextUuid + 1 }

/-- `_remove_autosave_file(td)`: delete the snapshot file and the metadata
sidecar of an autosave slot (deletion failures cannot arise in the model). -/
def remove_autosave_file (fs : FS) (aid : String) : FS :=
  fsDelete (fsDelete fs (snapshotName aid)) (metaName aid)

/-- `_close_current_tab` after the user confirmed (or declined) the
message box, for the tab at position `i`. -/
def close_current_tab (st : EditorState) (i : Nat) (confirmed : Bool) :
    EditorState :=
  match st.tabs[i]? with
  | none => st
  | some td =>
    if confirmed then
      if (st.tabs.eraseIdx i).isEmpty then
        create_tab
          { st with fs := remove_autosave_file st.fs td.autosave_id,
                    tabs := st.tabs.eraseIdx i }
          "Untitled" "" none false none
      else
        { st with fs := remove_autosave_file st.fs td.autosave_id,
                  tabs := st.tabs.eraseIdx i }
    else st

/-- `_write_file(path, data)` (the success case). -/
def write_file (fs : FS) (path data : String) : FS :=
  fsWrite fs path (FileData.text data)

/-- `_update_tab_title(td)`: notebook tab text becomes the basename of
`file_path`, or `"Untitled"`. -/
def update_tab_title (td : TabData) : TabData :=
  { td with title := match td.file_path with
      | some p => basename p
      | none => "Untitled" }

/-- `_save_current_tab_as` for the tab at `i`, with `dialogPath` the result
of `filedialog.asksaveasfilename()` (`none` = dialog cancelled): write the
buffer to the chosen path, bind `file_path`, retitle, and remove the
autosave pair. -/
def save_current_tab_as (st : EditorState) (i : Nat)
    (dialogPath : Option String) : EditorState :=
  match st.tabs[i]?, dialogPath with
  | some td, some path =>
      let fs1 := write_file st.fs path td.content
      let td1 := update_tab_title { td with file_path := some path }
      { st with fs := remove_autosave_file fs1 td.autosave_id,
                tabs := st.tabs.set i td1 }
  | _, _ => st

/-- `_save_current_tab` for the tab at `i`: with a bound `file_path`, write
the buffer there and retitle (no autosave cleanup on this branch);
otherwise fall through to Save-As. -/
def save_current_tab (st : EditorState) (i : Nat)
    (dialogPath : Option String) : EditorState :=
  match st.tabs[i]? with
  | none => st
  | some td =>
    match td.file_path with
    | some p =>
        { st with fs := write_file st.fs p td.content,
                  tabs := st.tabs.set i (update_tab_title td) }
    | none => save_current_tab_as st i dialogPath

/-- The `title` field written into the metadata sidecar (app.py line 170):
basename of `file_path` when bound, else the notebook tab text. -/
def metaTitleOf (td : TabData) : String :=
  match td.file_path with
  | some p => basename p
  | none => td.title

/-- The body of the per-tab autosave loop (app.py lines 162-174): write
the buffer to the snapshot file, then the metadata record to the sidecar. -/
def autosaveTab (fs : FS) (now : Nat) (td : TabData) : FS :=
  let fpath := snapshotName td.autosave_id
  let fs1 := fsWrite fs fpath (FileData.text td.content)
  fsWrite fs1 (fpath ++ AUTOSAVE_META_EXT)
    (FileData.meta td.file_path now (metaTitleOf td))

/-- `_autosave_all_tabs` (one cycle, at time `now`): snapshot every open
tab, dirty or not. -/
def autosave_all_tabs (st : EditorState) (now : Nat) : EditorState :=
  { st with fs := st.tabs.foldl (fun fs td => autosaveTab fs now td) st.fs }

/-- `_list_autosave_files`: names in the autosave directory that start with
the autosave stem and end in `".txt"` (Python's `str.startswith` /
`str.endswith`, modelled on the character sequences). -/
def list_autosave_files (fs : FS) : List String :=
  (fs.map Prod.fst).filter
    (fun name => AUTOSAVE_STEM.data.isPrefixOf name.data
      && ".txt".data.isSuffixOf name.data)

/-- `json.load` on a metadata sidecar: succeeds exactly on a metadata
record, yielding its `file_path` and `title` fields. -/
def parseMetaFile : Option FileData → Option (Option String × String)
  | some (FileData.meta fp _ title) => some (fp, title)
  | _ => none

/-- The scan step for one candidate (app.py lines 195-200): load the paired
sidecar, falling back to `{"file_path": None, "title": "Recovered"}` when
it is missing or unparsable. -/
def loadMeta (fs : FS) (fpath : String) : Option String × String :=
  (parseMetaFile (fsRead fs (fpath ++ AUTOSAVE_META_EXT))).getD
    (none, "Recovered")

/-- Reading a snapshot file during recovery (app.py lines 207-211): a
missing or unreadable file is treated as empty content. -/
def snapshotContentOf (fs : FS) (fpath : String) : String :=
  match fsRead fs fpath with
  | some (FileData.text s) => s
  | _ => ""

/-- `autosave_id = os.path.basename(fpath)[len(AUTOSAVE_PREFIX):-4]`
(app.py line 214); model paths are already directory-relative names. -/
def deriveAutosaveId (fname : String) : String :=
  (fname.drop AUTOSAVE_STEM.length).dropRight 4

/-- The body of the recovery loop for one accepted candidate (app.py lines
206-223): read the snapshot (failure = empty), apply the
`meta.get("title") or "Recovered"` fallback, create a recovered tab bound
to the derived autosave id, then delete the candidate's pair. -/
def recoverOne (st : EditorState) (c : String × (Option String × String)) :
    EditorState :=
  let content := snapshotContentOf st.fs c.1
  let title := if c.2.2.isEmpty then "Recovered" else c.2.2
  let st1 := create_tab st title content c.2.1 true
    (some (deriveAutosaveId c.1))
  { st1 with fs := fsDelete (fsDelete st1.fs c.1) (c.1 ++ AUTOSAVE_META_EXT) }

/-- Outcome of `_recover_autosaves_on_startup`: the resulting session,
how many confirmation prompts were issued, and the count the prompt
reported (0 when no prompt was shown). -/
structure RecoveryResult where
  st : EditorState
  prompts : Nat
  promptCount : Nat
deriving DecidableEq, Repr

/-- `_recover_autosaves_on_startup`, with `accept` the user's answer to the
(single, aggregated) `askyesno` prompt. -/
def recover_autosaves_on_startup (st : EditorState) (accept : Bool) :
    RecoveryResult :=
  if (list_autosave_files st.fs).isEmpty then ⟨st, 0, 0⟩
  else if ((list_autosave_files st.fs).map
      (fun f => (f, loadMeta st.fs f))).isEmpty then ⟨st, 0, 0⟩
  else if !accept then
    ⟨st, 1, ((list_autosave_files st.fs).map
      (fun f => (f, loadMeta st.fs f))).length⟩
  else
    ⟨((list_autosave_files st.fs).map
        (fun f => (f, loadMeta st.fs f))).foldl recoverOne st, 1,
      ((list_autosave_files st.fs).map
        (fun f => (f, loadMeta st.fs f))).length⟩

/-- `_exit_editor` after the user confirmed (or declined): remove the
autosave pair of every tab bound to a `file_path`, then destroy the
window.  The value is the disk state the process leaves behind. -/
def exit_editor (st : EditorState) (confirmed : Bool) : FS :=
  if confirmed then
    st.tabs.foldl (fun fs td =>
      match td.file_path with
      | some _ => remove_autosave_file fs td.autosave_id
      | none => fs) st.fs
  else st.fs

/-- `AdvancedEditor.__init__` given the initial contents `fs0` of the
autosave directory: create the single starting tab, then run startup
recovery with the user's answer `accept`. -/
def initEditor (fs0 : FS) (accept : Bool) : EditorState :=
  (recover_autosaves_on_startup
    (create_tab { tabs := [], fs := fs0, nextUuid := 0 }
      "Untitled" "" none false none)
    accept).st

/-! ### Filesystem lemmas -/

theorem fsRead_filter_ne (fs : FS) (p q : String) (h : q ≠ p) :
    fsRead (fs.filter (fun e => e.1 != p)) q = fsRead fs q := by
  induction fs with
  | nil => rfl
  | cons e rest ih =>
    by_cases he : e.1 = p
    · have h2 : ¬ (p = q) := fun hh => h hh.symm
      simp [List.filter_cons, he, fsRead, h2, ih]
    · by_cases hq : e.1 = q
      · simp [List.filter_cons, he, fsRead, hq, h]
      · simp [List.filter_cons, he, fsRead, hq, ih]

theorem fsRead_fsWrite_self (fs : FS) (p : String) (v : FileData) :
    fsRead (fsWrite fs p v) p = some v := by
  simp [fsRead, fsWrite]

theorem fsRead_fsWrite_ne (fs : FS) (p q : String) (v : FileData)
    (h : q ≠ p) : fsRead (fsWrite fs p v) q = fsRead fs q := by
  have : ¬ p = q := fun hh => h hh.symm
  simp only [fsWrite, fsRead, this, if_neg]
  exact fsRead_filter_ne fs p q h

theorem fsRead_fsDelete_self (fs : FS) (p : String) :
    fsRead (fsDelete fs p) p = none := by
  induction fs with
  | nil => rfl
  | cons e rest ih =>
    by_cases he : e.1 = p
    · simpa [fsDelete, List.filter_cons, he] using ih
    · simpa [fsDelete, List.filter_cons, he, fsRead] using ih

theorem fsRead_fsDelete_ne (fs : FS) (p q : String) (h : q ≠ p) :
    fsRead (fsDelete fs p) q = fsRead fs q :=
  fsRead_filter_ne fs p q h

theorem fsRead_fsDelete_none (fs : FS) (p q : String)
    (h : fsRead fs q = none) : fsRead (fsDelete fs p) q = none := by
  by_cases hq : q = p
  · rw [hq]; exact fsRead_fsDelete_self fs p
  · rw [fsRead_fsDelete_ne fs p q hq]; exact h

/-! ### String-level facts about snapshot and sidecar names -/

theorem validFor_dropRight {l m r : List Char} {ss : Substring}
    (h : Substring.ValidFor l m r ss) (n : Nat) :
    (ss.dropRight n).toString = ⟨m.take (m.length - n)⟩ := by
  cases h with
  | mk =>
    have hv : Substring.ValidFor l m r
        ⟨⟨l ++ m ++ r⟩, ⟨String.utf8Len l⟩,
          ⟨String.utf8Len l + String.utf8Len m⟩⟩ := Substring.ValidFor.mk
    have hm : Substring.ValidFor l (m.reverse.reverse ++ []) r
        ⟨⟨l ++ m ++ r⟩, ⟨String.utf8Len l⟩,
          ⟨String.utf8Len l + String.utf8Len m⟩⟩ := by
      simpa using hv
    have hp := @Substring.ValidFor.prevn l [] r m.reverse _ hm n
    simp only [String.utf8Len_reverse, List.drop_reverse] at hp
    show Substring.toString
      ⟨⟨l ++ m ++ r⟩, ⟨String.utf8Len l⟩,
        ⟨String.utf8Len l⟩ + Substring.prevn _ n ⟨Substring.bsize _⟩⟩ = _
    rw [hv.bsize, hp]
    have hstr : l ++ m ++ r =
        l ++ m.take (m.length - n) ++ (m.drop (m.length - n) ++ r) := by
      conv => lhs; rw [← List.take_append_drop (m.length - n) m]
      simp only [List.append_assoc]
    have hv2 : Substring.ValidFor l (m.take (m.length - n))
        (m.drop (m.length - n) ++ r)
        ⟨⟨l ++ m ++ r⟩, ⟨String.utf8Len l⟩,
          ⟨String.utf8Len l + String.utf8Len (m.take (m.length - n))⟩⟩ :=
      Substring.ValidFor.of_eq _ hstr rfl rfl
    simpa using hv2.toString

theorem dropRight_eq (s : String) (n : Nat) :
    s.dropRight n = ⟨s.data.take (s.data.length - n)⟩ :=
  validFor_dropRight (String.validFor_toSubstring s) n

theorem string_ext {s t : String} (h : s.data = t.data) : s = t :=
  congrArg String.mk h

theorem deriveAutosaveId_snapshotName (X : String) :
    deriveAutosaveId (snapshotName X) = X := by
  show ((AUTOSAVE_STEM ++ X ++ ".txt").drop AUTOSAVE_STEM.length).dropRight 4
      = X
  rw [String.drop_eq, dropRight_eq]
  apply string_ext
  have hdd : (AUTOSAVE_STEM ++ X ++ ".txt").data
      = AUTOSAVE_STEM.data ++ (X.data ++ ".txt".data) := by
    simp [String.data_append, List.append_assoc]
  have h1 : List.drop AUTOSAVE_STEM.length
        ((AUTOSAVE_STEM ++ X ++ ".txt").data)
      = X.data ++ ".txt".data := by
    rw [hdd]; exact List.drop_left' rfl
  show List.take _
      (List.drop AUTOSAVE_STEM.length ((AUTOSAVE_STEM ++ X ++ ".txt").data))
      = _
  rw [h1]
  have h2 : (X.data ++ ".txt".data).length - 4 = X.data.length := by simp
  rw [h2]
  exact List.take_left' rfl

theorem snapshotName_injective {a b : String}
    (h : snapshotName a = snapshotName b) : a = b := by
  have h2 := congrArg String.data h
  simp only [snapshotName, String.data_append] at h2
  exact string_ext (List.append_cancel_left (List.append_cancel_right h2))

theorem metaName_injective {a b : String}
    (h : metaName a = metaName b) : a = b := by
  have h2 := congrArg String.data h
  simp only [metaName, String.data_append] at h2
  exact snapshotName_injective
    (string_ext (List.append_cancel_right h2))

theorem snapshotName_ne_metaName (a b : String) :
    snapshotName a ≠ metaName b := by
  intro h
  have h2 := congrArg (fun s : String => s.data.getLast?) h
  simp [snapshotName, metaName, AUTOSAVE_META_EXT, String.data_append,
    List.getLast?_append] at h2

/-! ### Claim C5: autosave id round trip through the snapshot filename -/

/-- C5: for every autosave id `X`, the snapshot filename used by the
autosave cycle is the stem followed by `X` followed by `".txt"`; the id
recovery derives back from that filename is exactly `X`, and the tab a
recovery step reconstitutes from that snapshot re-binds to autosave id
`X` (the orphan's slot). -/
theorem autosave_id_roundtrip (X : String) (m : Option String × String)
    (st : EditorState) :
    snapshotName X = AUTOSAVE_STEM ++ X ++ ".txt" ∧
    deriveAutosaveId (snapshotName X) = X ∧
    ((recoverOne st (snapshotName X, m)).tabs.getLast?).map
      TabData.autosave_id = some X := by
  refine ⟨rfl, deriveAutosaveId_snapshotName X, ?_⟩
  show ((st.tabs ++ [_]).getLast?).map TabData.autosave_id = _
  rw [List.getLast?_concat]
  simp [deriveAutosaveId_snapshotName X]

/-! ### Claim C9: declining recovery leaves the disk untouched -/

/-- C9: when the user declines the recovery prompt, the whole session state
— in particular every candidate snapshot file and metadata sidecar on disk
— is left exactly as it was, so the candidates are discoverable again on
the next startup. -/
theorem decline_leaves_disk_untouched (st : EditorState) :
    (recover_autosaves_on_startup st false).st = st := by
  unfold recover_autosaves_on_startup
  by_cases h : (list_autosave_files st.fs).isEmpty
  · simp [h]
  · simp only [h, Bool.false_eq_true, if_false]
    split <;> rfl

/-! ### Claim C6: one aggregated recovery prompt -/

/-- C6: at startup, when `N ≥ 1` snapshot candidates are found, exactly one
aggregated recovery confirmation is issued and it reports the count `N`;
when no candidate is found, no prompt is issued at all. -/
theorem batch_recovery_prompt (st : EditorState) (accept : Bool) :
    (1 ≤ (list_autosave_files st.fs).length →
      (recover_autosaves_on_startup st accept).prompts = 1 ∧
      (recover_autosaves_on_startup st accept).promptCount
        = (list_autosave_files st.fs).length) ∧
    ((list_autosave_files st.fs).length = 0 →
      (recover_autosaves_on_startup st accept).prompts = 0) := by
  unfold recover_autosaves_on_startup
  by_cases h : (list_autosave_files st.fs).isEmpty
  · rw [List.isEmpty_iff] at h
    simp [h]
  · rw [List.isEmpty_iff] at h
    cases accept <;> simp [h]

/-! ### Removing an autosave pair -/

theorem fsRead_remove_snap (fs : FS) (a : String) :
    fsRead (remove_autosave_file fs a) (snapshotName a) = none := by
  unfold remove_autosave_file
  rw [fsRead_fsDelete_ne _ _ _ (snapshotName_ne_metaName a a)]
  exact fsRead_fsDelete_self _ _

theorem fsRead_remove_meta (fs : FS) (a : String) :
    fsRead (remove_autosave_file fs a) (metaName a) = none :=
  fsRead_fsDelete_self _ _

theorem fsRead_remove_ne (fs : FS) (a p : String)
    (h1 : p ≠ snapshotName a) (h2 : p ≠ metaName a) :
    fsRead (remove_autosave_file fs a) p = fsRead fs p := by
  unfold remove_autosave_file
  rw [fsRead_fsDelete_ne _ _ _ h2, fsRead_fsDelete_ne _ _ _ h1]

theorem fsRead_remove_none (fs : FS) (a p : String)
    (h : fsRead fs p = none) :
    fsRead (remove_autosave_file fs a) p = none :=
  fsRead_fsDelete_none _ _ _ (fsRead_fsDelete_none _ _ _ h)

/-! ### Claim C4: a confirmed close retires the snapshot pair -/

/-- C4: after a confirmed close of the tab at position `i`, both the
snapshot file and the metadata sidecar for that tab's autosave id are gone
from disk, and the tab itself is removed from the store (with a fresh
Untitled tab taking its place when it was the last one). -/
theorem close_retires_snapshot (st : EditorState) (i : Nat) (td : TabData)
    (h : st.tabs[i]? = some td) :
    fsRead (close_current_tab st i true).fs
      (snapshotName td.autosave_id) = none ∧
    fsRead (close_current_tab st i true).fs
      (metaName td.autosave_id) = none ∧
    (close_current_tab st i true).tabs =
      (if (st.tabs.eraseIdx i).isEmpty then [freshTab st.nextUuid]
       else st.tabs.eraseIdx i) := by
  unfold close_current_tab
  rw [h]
  by_cases he : (st.tabs.eraseIdx i).isEmpty
  · obtain ⟨hlt, -⟩ := List.getElem?_eq_some_iff.mp h
    have he2 : (st.tabs.eraseIdx i).length = 0 := by
      rw [List.isEmpty_iff] at he
      simp [he]
    rw [List.length_eraseIdx_of_lt hlt] at he2
    simp [he, create_tab, freshTab, fsRead_remove_snap, fsRead_remove_meta]
    omega
  · simp [he, fsRead_remove_snap, fsRead_remove_meta]

/-- Concrete sample session: one untitled tab and one file-bound tab,
after one autosave cycle has written both snapshot pairs. -/
def tdA : TabData := ⟨"Untitled", "hello", none, "a0"⟩

def tdB : TabData := ⟨"notes.txt", "world", some "dir/notes.txt", "b1"⟩

def fsPairs : FS := autosaveTab (autosaveTab [] 5 tdA) 5 tdB

def stAB : EditorState := ⟨[tdA, tdB], fsPairs, 3⟩

theorem close_retires_snapshot_witness :
    fsRead (close_current_tab stAB 0 true).fs (snapshotName "a0") = none ∧
    fsRead (close_current_tab stAB 0 true).fs (metaName "a0") = none ∧
    (close_current_tab stAB 0 true).tabs =
      (if (stAB.tabs.eraseIdx 0).isEmpty then [freshTab stAB.nextUuid]
       else stAB.tabs.eraseIdx 0) :=
  close_retires_snapshot stAB 0 tdA (by decide)

/-! ### Claim C1: explicit save versus the autosave pair -/

/-- Concrete counterexample state for C1: a single tab already bound to
`"notes.txt"`, after one autosave cycle has written its snapshot pair. -/
def tdSaved : TabData := ⟨"notes.txt", "new text", some "notes.txt", "b1"⟩

def stSaveC : EditorState := ⟨[tdSaved], autosaveTab [] 7 tdSaved, 3⟩

/-- C1 as stated is false: a Save of a document that already has a
`file_path` succeeds (the buffer reaches the file) yet leaves both the
snapshot file and the metadata sidecar of its autosave id on disk. -/
theorem save_keeps_snapshot_counterexample :
    fsRead (save_current_tab stSaveC 0 none).fs "notes.txt"
      = some (FileData.text "new text") ∧
    fsExists (save_current_tab stSaveC 0 none).fs (snapshotName "b1")
      = true ∧
    fsExists (save_current_tab stSaveC 0 none).fs (metaName "b1")
      = true := by
  decide

/-- C1 amended: only the Save-As path retires the autosave pair.  After
`_save_current_tab_as` on the tab at `i` with a chosen `path`, the snapshot
file and metadata sidecar of that tab's autosave id are gone and its
`file_path` is `path`; a plain Save with no bound `file_path` delegates to
Save-As; a plain Save of a tab already bound to `p0` only rewrites `p0`
and leaves the snapshot slot of the autosave pair untouched. -/
theorem save_as_supersedes_autosave (st : EditorState) (i : Nat)
    (td : TabData) (path : String) (h : st.tabs[i]? = some td) :
    fsRead (save_current_tab_as st i (some path)).fs
      (snapshotName td.autosave_id) = none ∧
    fsRead (save_current_tab_as st i (some path)).fs
      (metaName td.autosave_id) = none ∧
    ((save_current_tab_as st i (some path)).tabs[i]?).map TabData.file_path
      = some (some path) ∧
    (td.file_path = none →
      save_current_tab st i (some path) = save_current_tab_as st i (some path)) ∧
    (∀ p0, td.file_path = some p0 → p0 ≠ snapshotName td.autosave_id →
      fsRead (save_current_tab st i (some path)).fs
        (snapshotName td.autosave_id)
        = fsRead st.fs (snapshotName td.autosave_id)) := by
  obtain ⟨hlt, -⟩ := List.getElem?_eq_some_iff.mp h
  refine ⟨?_, ?_, ?_, ?_, ?_⟩
  · unfold save_current_tab_as
    rw [h]
    exact fsRead_remove_snap _ _
  · unfold save_current_tab_as
    rw [h]
    exact fsRead_remove_meta _ _
  · unfold save_current_tab_as
    rw [h]
    simp [List.getElem?_set_self hlt, update_tab_title]
  · intro hfp
    unfold save_current_tab
    rw [h]
    show (match td.file_path with
      | some p => { st with fs := write_file st.fs p td.content,
                            tabs := st.tabs.set i (update_tab_title td) }
      | none => save_current_tab_as st i (some path))
      = save_current_tab_as st i (some path)
    rw [hfp]
  · intro p0 hfp hne
    unfold save_current_tab
    rw [h]
    show fsRead (match td.file_path with
      | some p => { st with fs := write_file st.fs p td.content,
                            tabs := st.tabs.set i (update_tab_title td) }
      | none => save_current_tab_as st i (some path)).fs
      (snapshotName td.autosave_id)
      = fsRead st.fs (snapshotName td.autosave_id)
    rw [hfp]
    exact fsRead_fsWrite_ne _ _ _ _ (Ne.symm hne)

theorem save_as_supersedes_autosave_witness :
    fsRead (save_current_tab_as stSaveC 0 (some "out.txt")).fs
      (snapshotName "b1") = none ∧
    fsRead (save_current_tab_as stSaveC 0 (some "out.txt")).fs
      (metaName "b1") = none ∧
    fsRead (save_current_tab stSaveC 0 (some "out.txt")).fs
      (snapshotName "b1")
      = fsRead stSaveC.fs (snapshotName "b1") :=
  ⟨(save_as_supersedes_autosave stSaveC 0 tdSaved "out.txt" (by decide)).1,
   (save_as_supersedes_autosave stSaveC 0 tdSaved "out.txt" (by decide)).2.1,
   (save_as_supersedes_autosave stSaveC 0 tdSaved "out.txt"
      (by decide)).2.2.2.2 "notes.txt" (by decide) (by decide)⟩

/-! ### Claim C2: what a confirmed exit leaves on disk -/

theorem exit_fold_none (l : List TabData) (fs : FS) (p : String)
    (h : fsRead fs p = none) :
    fsRead (l.foldl (fun fs td =>
      match td.file_path with
      | some _ => remove_autosave_file fs td.autosave_id
      | none => fs) fs) p = none := by
  induction l generalizing fs with
  | nil => exact h
  | cons u rest ih =>
    simp only [List.foldl_cons]
    cases hu : u.file_path with
    | none => simp only [hu]; exact ih _ h
    | some p0 => simp only [hu]; exact ih _ (fsRead_remove_none _ _ _ h)

theorem exit_fold_removes (l : List TabData) (fs : FS) (td : TabData)
    (hmem : td ∈ l) (p0 : String) (hsome : td.file_path = some p0) :
    fsRead (l.foldl (fun fs td =>
      match td.file_path with
      | some _ => remove_autosave_file fs td.autosave_id
      | none => fs) fs) (snapshotName td.autosave_id) = none ∧
    fsRead (l.foldl (fun fs td =>
      match td.file_path with
      | some _ => remove_autosave_file fs td.autosave_id
      | none => fs) fs) (metaName td.autosave_id) = none := by
  induction l generalizing fs with
  | nil => cases hmem
  | cons u rest ih =>
    simp only [List.foldl_cons]
    rcases List.mem_cons.mp hmem with rfl | hmem2
    · rw [hsome]
      constructor
      · exact exit_fold_none rest _ _ (fsRead_remove_snap _ _)
      · exact exit_fold_none rest _ _ (fsRead_remove_meta _ _)
    · exact ih _ hmem2

/-- Concrete counterexample state for C2: one tab, never bound to a
`file_path`, whose snapshot pair was written by an autosave cycle. -/
def stUnsaved : EditorState := ⟨[tdA], autosaveTab [] 9 tdA, 1⟩

/-- C2 as stated is false: a normal, confirmed exit with an unsaved
(untitled) tab leaves that tab's snapshot pair on disk — an orphan
produced by a clean exit. -/
theorem exit_leaves_orphan_counterexample :
    fsExists (exit_editor stUnsaved true) (snapshotName "a0") = true ∧
    fsExists (exit_editor stUnsaved true) (metaName "a0") = true := by
  decide

/-- C2 amended: a confirmed exit deletes the snapshot pair of every open
document that is bound to a `file_path`; documents with no `file_path`
keep their pair, so a clean exit leaves orphan snapshots exactly for the
never-saved documents. -/
theorem clean_exit_removes_saved_pairs (st : EditorState) (td : TabData)
    (hmem : td ∈ st.tabs) (p : String) (hp : td.file_path = some p) :
    fsRead (exit_editor st true) (snapshotName td.autosave_id) = none ∧
    fsRead (exit_editor st true) (metaName td.autosave_id) = none := by
  unfold exit_editor
  simp only [if_pos]
  exact exit_fold_removes st.tabs st.fs td hmem p hp

theorem clean_exit_removes_saved_pairs_witness :
    fsRead (exit_editor stAB true) (snapshotName "b1") = none ∧
    fsRead (exit_editor stAB true) (metaName "b1") = none :=
  clean_exit_removes_saved_pairs stAB tdB (by decide) "dir/notes.txt"
    (by decide)

/-! ### Claim C3: snapshot fidelity of the autosave cycle -/

theorem autosave_fold_preserves (l : List TabData) (fs : FS) (now : Nat)
    (p : String)
    (h : ∀ u ∈ l,
      p ≠ snapshotName u.autosave_id ∧ p ≠ metaName u.autosave_id) :
    fsRead (l.foldl (fun fs td => autosaveTab fs now td) fs) p
      = fsRead fs p := by
  induction l generalizing fs with
  | nil => rfl
  | cons u rest ih =>
    simp only [List.foldl_cons]
    rw [ih _ (fun v hv => h v (List.mem_cons_of_mem u hv))]
    obtain ⟨h1, h2⟩ := h u (List.mem_cons_self u rest)
    show fsRead (fsWrite (fsWrite fs (snapshotName u.autosave_id)
        (FileData.text u.content))
      (metaName u.autosave_id)
      (FileData.meta u.file_path now (metaTitleOf u))) p = fsRead fs p
    rw [fsRead_fsWrite_ne _ _ _ _ h2, fsRead_fsWrite_ne _ _ _ _ h1]

theorem autosave_fold_writes (l : List TabData) (fs : FS) (now : Nat)
    (td : TabData) (hmem : td ∈ l)
    (hnodup : (l.map TabData.autosave_id).Nodup) :
    fsRead (l.foldl (fun fs td => autosaveTab fs now td) fs)
      (snapshotName td.autosave_id) = some (FileData.text td.content) ∧
    fsRead (l.foldl (fun fs td => autosaveTab fs now td) fs)
      (metaName td.autosave_id)
      = some (FileData.meta td.file_path now (metaTitleOf td)) := by
  induction l generalizing fs with
  | nil => cases hmem
  | cons u rest ih =>
    simp only [List.map_cons, List.nodup_cons] at hnodup
    simp only [List.foldl_cons]
    rcases List.mem_cons.mp hmem with rfl | hmem2
    · have hpres : ∀ v ∈ rest,
          snapshotName td.autosave_id ≠ snapshotName v.autosave_id ∧
          snapshotName td.autosave_id ≠ metaName v.autosave_id := by
        intro v hv
        refine ⟨fun heq => ?_, snapshotName_ne_metaName _ _⟩
        exact hnodup.1
          (snapshotName_injective heq ▸ List.mem_map_of_mem _ hv)
      have hpresm : ∀ v ∈ rest,
          metaName td.autosave_id ≠ snapshotName v.autosave_id ∧
          metaName td.autosave_id ≠ metaName v.autosave_id := by
        intro v hv
        refine ⟨fun heq => snapshotName_ne_metaName _ _ heq.symm,
          fun heq => ?_⟩
        exact hnodup.1
          (metaName_injective heq ▸ List.mem_map_of_mem _ hv)
      constructor
      · rw [autosave_fold_preserves rest _ now _ hpres]
        show fsRead (fsWrite (fsWrite fs (snapshotName td.autosave_id)
            (FileData.text td.content))
          (metaName td.autosave_id)
          (FileData.meta td.file_path now (metaTitleOf td)))
          (snapshotName td.autosave_id) = _
        rw [fsRead_fsWrite_ne _ _ _ _ (snapshotName_ne_metaName _ _)]
        exact fsRead_fsWrite_self _ _ _
      · rw [autosave_fold_preserves rest _ now _ hpresm]
        show fsRead (fsWrite (fsWrite fs (snapshotName td.autosave_id)
            (FileData.text td.content))
          (metaName td.autosave_id)
          (FileData.meta td.file_path now (metaTitleOf td)))
          (metaName td.autosave_id) = _
        exact fsRead_fsWrite_self _ _ _
    · exact ih _ hmem2 hnodup.2

/-- C3: for every open tab whose buffer is `C` just before an autosave
cycle at time `now`, after the cycle the snapshot file named by its
autosave id holds exactly `C`, and the metadata sidecar holds exactly the
tab's `file_path`, the timestamp `now`, and its title; this holds for
every open tab — there is no dirtiness gate (the ids being distinct is the
session invariant that keeps one tab's pair from clobbering another's). -/
theorem autosave_snapshot_fidelity (st : EditorState) (now : Nat)
    (td : TabData) (hmem : td ∈ st.tabs)
    (hnodup : (st.tabs.map TabData.autosave_id).Nodup) :
    fsRead (autosave_all_tabs st now).fs (snapshotName td.autosave_id)
      = some (FileData.text td.content) ∧
    fsRead (autosave_all_tabs st now).fs (metaName td.autosave_id)
      = some (FileData.meta td.file_path now (metaTitleOf td)) :=
  autosave_fold_writes st.tabs st.fs now td hmem hnodup

theorem autosave_snapshot_fidelity_witness :
    fsRead (autosave_all_tabs stAB 5).fs (snapshotName "a0")
      = some (FileData.text "hello") ∧
    fsRead (autosave_all_tabs stAB 5).fs (metaName "a0")
      = some (FileData.meta none 5 "Untitled") :=
  autosave_snapshot_fidelity stAB 5 tdA (by decide) (by decide)

/-! ### Characterizing an accepted recovery batch -/

/-- The tab that recovery reconstitutes from the candidate `fpath`, reading
against the scan-time disk state `fs`. -/
def recoveredTabOf (fs : FS) (fpath : String) : TabData :=
  let m := loadMeta fs fpath
  { title := "Recovered - " ++ (if m.2.isEmpty then "Recovered" else m.2),
    content := snapshotContentOf fs fpath,
    file_path := m.1,
    autosave_id := deriveAutosaveId fpath }

/-- Wellformedness of a directory listing, as `os.listdir` guarantees it:
the listed names are distinct, and no listed snapshot name is another
candidate's metadata sidecar name (true of any real listing, since
snapshot names end in `".txt"` and sidecar names in `".json"`). -/
def goodListing (fs : FS) : Prop :=
  (list_autosave_files fs).Nodup ∧
  ∀ f ∈ list_autosave_files fs, ∀ g ∈ list_autosave_files fs,
    f ≠ g ++ AUTOSAVE_META_EXT

instance (fs : FS) : Decidable (goodListing fs) := by
  unfold goodListing
  infer_instance

theorem recover_fold_tabs (fs0 : FS) (l : List String) (s : EditorState)
    (hread : ∀ f ∈ l, fsRead s.fs f = fsRead fs0 f)
    (hpw : l.Pairwise (fun a b => b ≠ a ∧ b ≠ a ++ AUTOSAVE_META_EXT)) :
    ((l.map (fun f => (f, loadMeta fs0 f))).foldl recoverOne s).tabs
      = s.tabs ++ l.map (recoveredTabOf fs0) := by
  induction l generalizing s with
  | nil => simp
  | cons f rest ih =>
    obtain ⟨hpw1, hpw2⟩ := List.pairwise_cons.mp hpw
    simp only [List.map_cons, List.foldl_cons]
    have hcontent : snapshotContentOf s.fs f = snapshotContentOf fs0 f := by
      unfold snapshotContentOf
      rw [hread f (List.mem_cons_self f rest)]
    have hstep_tabs : (recoverOne s (f, loadMeta fs0 f)).tabs
        = s.tabs ++ [recoveredTabOf fs0 f] := by
      simp [recoverOne, create_tab, recoveredTabOf, hcontent]
    have hstep_fs : ∀ g ∈ rest,
        fsRead (recoverOne s (f, loadMeta fs0 f)).fs g = fsRead fs0 g := by
      intro g hg
      show fsRead (fsDelete (fsDelete s.fs f) (f ++ AUTOSAVE_META_EXT)) g
        = fsRead fs0 g
      rw [fsRead_fsDelete_ne _ _ _ (hpw1 g hg).2,
        fsRead_fsDelete_ne _ _ _ (hpw1 g hg).1]
      exact hread g (List.mem_cons_of_mem f hg)
    rw [ih _ hstep_fs hpw2, hstep_tabs]
    simp

theorem recover_accept_tabs (st : EditorState) (hgood : goodListing st.fs) :
    (recover_autosaves_on_startup st true).st.tabs
      = st.tabs ++ (list_autosave_files st.fs).map (recoveredTabOf st.fs) := by
  have hpw : (list_autosave_files st.fs).Pairwise
      (fun a b => b ≠ a ∧ b ≠ a ++ AUTOSAVE_META_EXT) :=
    hgood.1.pairwise_of_forall_ne
      (fun a ha b hb hab => ⟨hab.symm, hgood.2 b hb a ha⟩)
  unfold recover_autosaves_on_startup
  by_cases h : (list_autosave_files st.fs).isEmpty
  · rw [List.isEmpty_iff] at h
    simp [h]
  · have hfne : list_autosave_files st.fs ≠ [] := by
      intro hnil
      exact h (by simp [hnil])
    rw [if_neg (by simpa using hfne), if_neg (by simp [hfne]),
      if_neg (by simp)]
    exact recover_fold_tabs st.fs _ st (fun f hf => rfl) hpw

/-! ### Claim C7: metadata fallback does not exclude a candidate -/

/-- C7: a snapshot candidate whose metadata sidecar is missing or
unparsable is not excluded from recovery: it is recovered with the
fallback metadata `file_path = none` and title `"Recovered"` (displayed
as `"Recovered - Recovered"`), and every other candidate is still
recovered alongside it. -/
theorem recovery_metadata_fallback (st : EditorState) (f : String)
    (hgood : goodListing st.fs) (hf : f ∈ list_autosave_files st.fs)
    (hmeta : parseMetaFile (fsRead st.fs (f ++ AUTOSAVE_META_EXT)) = none) :
    (recoveredTabOf st.fs f).file_path = none ∧
    (recoveredTabOf st.fs f).title = "Recovered - Recovered" ∧
    (recover_autosaves_on_startup st true).st.tabs
      = st.tabs ++ (list_autosave_files st.fs).map (recoveredTabOf st.fs) ∧
    recoveredTabOf st.fs f ∈ (recover_autosaves_on_startup st true).st.tabs
    := by
  have hchar := recover_accept_tabs st hgood
  have hload : loadMeta st.fs f = (none, "Recovered") := by
    unfold loadMeta
    rw [hmeta]
    rfl
  refine ⟨?_, ?_, hchar, ?_⟩
  · simp [recoveredTabOf, hload]
  · simp [recoveredTabOf, hload]
  · rw [hchar]
    exact List.mem_append_right _ (List.mem_map_of_mem _ hf)

def fsC7 : FS :=
  [(snapshotName "x1", FileData.text "alpha"),
   (snapshotName "y2", FileData.text "beta"),
   (metaName "y2", FileData.meta (some "p") 3 "t")]

def stC7 : EditorState := ⟨[tdA], fsC7, 1⟩

theorem recovery_metadata_fallback_witness :
    (recoveredTabOf stC7.fs (snapshotName "x1")).file_path = none ∧
    (recoveredTabOf stC7.fs (snapshotName "x1")).title
      = "Recovered - Recovered" ∧
    (recover_autosaves_on_startup stC7 true).st.tabs
      = stC7.tabs
        ++ (list_autosave_files stC7.fs).map (recoveredTabOf stC7.fs) ∧
    recoveredTabOf stC7.fs (snapshotName "x1")
      ∈ (recover_autosaves_on_startup stC7 true).st.tabs :=
  recovery_metadata_fallback stC7 (snapshotName "x1") (by decide)
    (by decide) (by decide)

/-! ### Claim C8: a snapshot read failure empties only that candidate -/

/-- C8: in an accepted recovery batch, a candidate whose snapshot file
cannot be read is recovered with empty content, and the whole batch is
still processed — the store grows by exactly one tab per candidate. -/
theorem recovery_read_failure_empty (st : EditorState) (f : String)
    (hgood : goodListing st.fs) (hf : f ∈ list_autosave_files st.fs)
    (hcorrupt : fsRead st.fs f = some FileData.corrupt) :
    (recoveredTabOf st.fs f).content = "" ∧
    (recover_autosaves_on_startup st true).st.tabs
      = st.tabs ++ (list_autosave_files st.fs).map (recoveredTabOf st.fs) ∧
    (recover_autosaves_on_startup st true).st.tabs.length
      = st.tabs.length + (list_autosave_files st.fs).length ∧
    recoveredTabOf st.fs f ∈ (recover_autosaves_on_startup st true).st.tabs
    := by
  have hchar := recover_accept_tabs st hgood
  refine ⟨?_, hchar, ?_, ?_⟩
  · show snapshotContentOf st.fs f = ""
    unfold snapshotContentOf
    rw [hcorrupt]
  · rw [hchar]
    simp
  · rw [hchar]
    exact List.mem_append_right _ (List.mem_map_of_mem _ hf)

def fsC8 : FS :=
  [(snapshotName "x1", FileData.corrupt),
   (metaName "x1", FileData.meta none 3 "T1"),
   (snapshotName "y2", FileData.text "beta"),
   (metaName "y2", FileData.meta (some "p") 3 "t")]

def stC8 : EditorState := ⟨[tdA], fsC8, 1⟩

theorem recovery_read_failure_empty_witness :
    (recoveredTabOf stC8.fs (snapshotName "x1")).content = "" ∧
    (recover_autosaves_on_startup stC8 true).st.tabs
      = stC8.tabs
        ++ (list_autosave_files stC8.fs).map (recoveredTabOf stC8.fs) ∧
    (recover_autosaves_on_startup stC8 true).st.tabs.length
      = stC8.tabs.length + (list_autosave_files stC8.fs).length ∧
    recoveredTabOf stC8.fs (snapshotName "x1")
      ∈ (recover_autosaves_on_startup stC8 true).st.tabs :=
  recovery_read_failure_empty stC8 (snapshotName "x1") (by decide)
    (by decide) (by decide)

/-! ### Claim C10: the set of open tabs is never empty -/

theorem recover_fold_tabs_ne
    (l : List (String × (Option String × String))) (s : EditorState)
    (h : s.tabs ≠ []) : (l.foldl recoverOne s).tabs ≠ [] := by
  induction l generalizing s with
  | nil => exact h
  | cons c rest ih =>
    rw [List.foldl_cons]
    apply ih
    simp [recoverOne, create_tab]

theorem recovery_preserves_nonempty (st : EditorState) (a : Bool)
    (h : st.tabs ≠ []) :
    (recover_autosaves_on_startup st a).st.tabs ≠ [] := by
  unfold recover_autosaves_on_startup
  split
  · exact h
  · split
    · exact h
    · split
      · exact h
      · exact recover_fold_tabs_ne _ _ h

/-- C10: the store is never empty while the editor runs — startup creates
one tab (and recovery only adds tabs), and a confirmed close never leaves
the store empty: closing the last remaining tab automatically creates a
fresh empty `"Untitled"` tab carrying a newly generated autosave id. -/
theorem tabs_never_empty (fs0 : FS) (accept : Bool) :
    (initEditor fs0 accept).tabs ≠ [] ∧
    (∀ st : EditorState, ∀ i : Nat, ∀ c : Bool,
      st.tabs ≠ [] → (close_current_tab st i c).tabs ≠ []) ∧
    (∀ st : EditorState, ∀ i : Nat, ∀ td : TabData,
      st.tabs[i]? = some td → st.tabs.eraseIdx i = [] →
      (close_current_tab st i true).tabs = [freshTab st.nextUuid] ∧
      (close_current_tab st i true).nextUuid = st.nextUuid + 1) ∧
    (∀ n : Nat, freshTab n = ⟨"Untitled", "", none, uuidStr n⟩) := by
  refine ⟨?_, ?_, ?_, fun n => rfl⟩
  · apply recovery_preserves_nonempty
    simp [create_tab]
  · intro st i c h
    unfold close_current_tab
    cases htd : st.tabs[i]? with
    | none => exact h
    | some td =>
      cases c with
      | false => simpa using h
      | true =>
        by_cases he : (st.tabs.eraseIdx i).isEmpty
        · simp [he, create_tab]
        · have hne : st.tabs.eraseIdx i ≠ [] := by
            intro hnil
            exact he (by simp [hnil])
          simpa [he] using hne
  · intro st i td htd he
    unfold close_current_tab
    rw [htd]
    constructor
    · simp [he, create_tab, freshTab]
    · simp [he, create_tab]

def stOne : EditorState := ⟨[tdA], [], 4⟩

theorem tabs_never_empty_witness :
    (initEditor [] true).tabs ≠ [] ∧
    (close_current_tab stOne 0 true).tabs = [freshTab stOne.nextUuid] ∧
    (close_current_tab stOne 0 true).nextUuid = stOne.nextUuid + 1 :=
  ⟨(tabs_never_empty [] true).1,
   ((tabs_never_empty [] true).2.2.1 stOne 0 tdA (by decide) (by decide)).1,
   ((tabs_never_empty [] true).2.2.1 stOne 0 tdA (by decide) (by decide)).2⟩

def stN3 : EditorState := ⟨[tdA],
  [(snapshotName "x1", FileData.text "a"),
   (snapshotName "y2", FileData.text "b"),
   (snapshotName "z3", FileData.text "c")], 0⟩

theorem batch_recovery_prompt_witness :
    (recover_autosaves_on_startup stN3 true).prompts = 1 ∧
    (recover_autosaves_on_startup stN3 true).promptCount
      = (list_autosave_files stN3.fs).length :=
  (batch_recovery_prompt stN3 true).1 (by decide)

end Texter
